import Mathlib

/-!
Shallow embedding of the CloudService storage bookkeeping logic
(Django application): quota accounting, file versioning, soft-delete
trash, sharing permissions and public links.

Conventions of the embedding:
* database rows become Lean structures; querysets become `List`s of rows;
* timestamps are integers (seconds since the epoch); `timezone.timedelta(days=d)`
  is `d * 86400` seconds;
* Python's float division in percentage computations is modelled with
  exact rational arithmetic (`ℚ`);
* `None`-able columns become `Option`; Python truthiness of an optional
  positive integer (`if self.x and ...`) is `x ≠ none` together with the
  value being nonzero.
-/

namespace CloudService

/-- A row of `core.models.StorageFile` (the fields the bookkeeping logic
reads and writes): owner id, containing folder id, name, an optional
content handle standing for the `FileField`, size in bytes, the trash
columns `is_trashed`, `trashed_at`, `original_folder`, and the version
counter. -/
structure StorageFile where
  owner : Nat
  folder : Nat
  name : String
  file : Option String
  size : Nat
  is_trashed : Bool
  trashed_at : Option Int
  original_folder : Option Nat
  version_count : Nat
deriving Repr, DecidableEq

/-- `accounts.models.UserProfile.get_storage_used` (models.py lines 126-136):
`StorageFile.objects.filter(owner=self.user).aggregate(total=Sum('size'))['total'] or 0`.
The queryset filters on the owner only; the SQL `Sum` of an empty set is
`NULL`, which the `or 0` turns into `0`. -/
def get_storage_used (u : Nat) (files : List StorageFile) : Nat :=
  let sizes := (files.filter (fun f => f.owner == u)).map (fun f => f.size)
  if sizes.isEmpty then 0 else sizes.sum

/-- Modelled from the spec wording for comparison with `get_storage_used`:
"usedBytes(owner) = sum(size) over non-trashed files owned by owner". -/
def specUsedBytes (u : Nat) (files : List StorageFile) : Nat :=
  ((files.filter (fun f => f.owner == u && !f.is_trashed)).map (fun f => f.size)).sum

/-- `UserProfile.get_storage_used_percentage` (models.py lines 142-147):
returns `0` when `storage_quota == 0`, else `used / quota * 100`. -/
def get_storage_used_percentage (used : Nat) (quota : Int) : ℚ :=
  if quota = 0 then 0 else ((used : ℚ) / (quota : ℚ)) * 100

/-- `UserProfile.get_storage_remaining` (models.py lines 149-151):
`self.storage_quota - self.get_storage_used()`. -/
def get_storage_remaining (used : Nat) (quota : Int) : Int :=
  quota - (used : Int)

/-- `UserProfile.is_storage_full` (models.py lines 157-159):
`self.get_storage_used() >= self.storage_quota`. -/
def is_storage_full (used : Nat) (quota : Int) : Bool :=
  decide (quota ≤ (used : Int))

/-- `UserProfile.is_storage_warning` (models.py lines 161-163):
`self.get_storage_used_percentage() >= threshold_percent`. -/
def is_storage_warning (used : Nat) (quota : Int) (threshold_percent : ℚ) : Bool :=
  decide (threshold_percent ≤ get_storage_used_percentage used quota)

/-- Python's `round(x, 2)` on the rational model: round to the nearest
hundredth (ties are immaterial to the properties proved here). -/
def round2 (x : ℚ) : ℚ :=
  ((round (x * 100) : ℤ) : ℚ) / 100

/-- `storage.views.StorageStatsView.get_context_data` (views.py lines 536-547):
the remaining-storage figure shown on the statistics page,
`max(0, round(storage_remaining_bytes / 2^30, 2))` with
`storage_remaining_bytes = storage_quota - storage_used_bytes`. -/
def storage_stats_remaining_gb (used : Nat) (quota : Int) : ℚ :=
  max 0 (round2 (((quota : ℚ) - (used : ℚ)) / (1024 * 1024 * 1024)))

/-- A row of `core.models.FileVersion`: version number, content
(`file_data` handle, `file_hash`, `size`), change description and the
`is_current` flag. -/
structure FileVersion where
  version_number : Nat
  file_data : String
  file_hash : String
  size : Nat
  change_description : String
  is_current : Bool
deriving Repr, DecidableEq

/-- The version bookkeeping attached to one `StorageFile`: its
`version_count` column together with its list of `FileVersion` rows. -/
structure FileState where
  version_count : Nat
  versions : List FileVersion
deriving Repr, DecidableEq

/-- `core.signals.create_initial_file_version` (signals.py lines 16-30)
combined with the `version_count=1` column default: on upload of a file
with content, one `FileVersion` with `version_number=1`, the file's
content fields, empty change description and `is_current=True` is
created. -/
def create_initial_file_version (file_data file_hash : String) (size : Nat) : FileState :=
  { version_count := 1
    versions := [{ version_number := 1
                   file_data := file_data
                   file_hash := file_hash
                   size := size
                   change_description := ""
                   is_current := true }] }

/-- `api.views.RestoreFileVersionView.post` (api/views.py lines 235-257;
`storage.views.RestoreVersionView.post`, storage/views.py lines 429-454,
is textually the same logic): with `version` a row of the file, creates
`FileVersion(file, version_number=version_count+1, file_data=version.file_data,
file_hash=version.file_hash, size=version.size,
change_description="Restored from version N", is_current=True)` and sets
the file's `version_count` to the new number. No other version row is
modified. -/
def restore_file_version (st : FileState) (version : FileVersion) : FileState :=
  let new_version_number := st.version_count + 1
  { version_count := new_version_number
    versions := st.versions ++
      [{ version_number := new_version_number
         file_data := version.file_data
         file_hash := version.file_hash
         size := version.size
         change_description := "Restored from version " ++ toString version.version_number
         is_current := true }] }

/-- Number of versions of the file carrying `is_current = true`. -/
def currentCount (st : FileState) : Nat :=
  (st.versions.filter (fun v => v.is_current)).length

/-- `StorageFile.move_to_trash` (core/models.py lines 331-336):
`original_folder = folder; is_trashed = True; trashed_at = now;
save(update_fields=['original_folder','is_trashed','trashed_at'])`.
The content (`file`), `folder`, `size` and the rest are untouched. -/
def move_to_trash (f : StorageFile) (now : Int) : StorageFile :=
  { f with original_folder := some f.folder
           is_trashed := true
           trashed_at := some now }

/-- `StorageFile.restore_from_trash` (core/models.py lines 338-345):
`if self.original_folder: self.folder = self.original_folder`, then
`is_trashed = False; trashed_at = None; original_folder = None`. -/
def restore_from_trash (f : StorageFile) : StorageFile :=
  let f1 := match f.original_folder with
            | some g => { f with folder := g }
            | none => f
  { f1 with is_trashed := false
            trashed_at := none
            original_folder := none }

/-- A row of `storage.models.TrashBin`: id, expiry timestamp
(`expires_at`, seconds since the epoch) and the `object_id` of the
underlying stored object its generic relation points at. -/
structure TrashEntry where
  id : Nat
  expires_at : Int
  object_id : Nat
deriving Repr, DecidableEq

/-- The state the trash sweeps act on: the `TrashBin` table together with
the set of stored file contents, represented by the ids of objects whose
content is present on disk. -/
structure TrashState where
  entries : List TrashEntry
  contents : List Nat
deriving Repr, DecidableEq

/-- `core.tasks.cleanup_trash` (tasks.py lines 18-34): deletes every
`TrashBin` row with `expires_at < timezone.now()` via `item.delete()`.
`TrashBin.delete` is the stock row delete: the generic relation does not
cascade, so the stored contents are untouched. -/
def cleanup_trash (st : TrashState) (now : Int) : TrashState :=
  { entries := st.entries.filter (fun e => !(decide (e.expires_at < now)))
    contents := st.contents }

/-- `core.management.commands.cleanup_trash.Command.handle`
(cleanup_trash.py lines 24-47): with `cutoff_date = now - timedelta(days=days)`,
deletes every `TrashBin` row with `expires_at < cutoff_date` via
`item.delete()`; contents untouched. -/
def cleanup_trash_command (st : TrashState) (now : Int) (days : Nat) : TrashState :=
  let cutoff_date := now - (days : Int) * 86400
  { entries := st.entries.filter (fun e => !(decide (e.expires_at < cutoff_date)))
    contents := st.contents }

/-- The `--days` argument of the management command defaults to 30
(cleanup_trash.py lines 17-23). -/
def cleanup_trash_command_default_days : Nat := 30

/-- `sharing.models.SharePermission.PERMISSION_CHOICES` keys
(sharing/models.py lines 28-35). -/
def PERMISSION_CHOICES : List String :=
  ["view", "download", "edit", "delete", "share", "admin"]

/-- `UserShare.can_view` (sharing/models.py lines 157-158):
`self.permission in ['view', 'download', 'edit', 'delete', 'share', 'admin']`. -/
def can_view (permission : String) : Bool :=
  ["view", "download", "edit", "delete", "share", "admin"].contains permission

/-- `UserShare.can_download` (sharing/models.py lines 160-161). -/
def can_download (permission : String) : Bool :=
  ["download", "edit", "delete", "share", "admin"].contains permission

/-- `UserShare.can_edit` (sharing/models.py lines 163-164). -/
def can_edit (permission : String) : Bool :=
  ["edit", "delete", "share", "admin"].contains permission

/-- `UserShare.can_delete` (sharing/models.py lines 166-167). -/
def can_delete (permission : String) : Bool :=
  ["delete", "share", "admin"].contains permission

/-- `UserShare.can_share` (sharing/models.py lines 169-170). -/
def can_share (permission : String) : Bool :=
  ["share", "admin"].contains permission

/-- `UserShare.can_admin` (sharing/models.py lines 172-173):
`self.permission == 'admin'`. -/
def can_admin (permission : String) : Bool :=
  permission == "admin"

/-- A row of `sharing.models.PublicLink` (the fields `is_expired` and
`get_url` read): token, optional expiry timestamp, optional download
limit (`expires_after_downloads`, a nullable positive integer) and the
download counter. -/
structure PublicLink where
  token : String
  expires_at : Option Int
  expires_after_downloads : Option Nat
  download_count : Nat
deriving Repr, DecidableEq

/-- `PublicLink.is_expired` (sharing/models.py lines 287-293):
`if self.expires_at and timezone.now() > self.expires_at: return True;
if self.expires_after_downloads and self.download_count >= self.expires_after_downloads:
return True; return False`. A set datetime is always truthy; a set
integer is truthy when nonzero. -/
def PublicLink.is_expired (l : PublicLink) (now : Int) : Bool :=
  if (match l.expires_at with
      | some t => decide (t < now)
      | none => false) then
    true
  else if (match l.expires_after_downloads with
           | some n => decide (n ≠ 0) && decide (n ≤ l.download_count)
           | none => false) then
    true
  else
    false

/-- `PublicLink.get_url` (sharing/models.py lines 315-317):
`f"/share/{self.token}/"`. -/
def PublicLink.get_url (l : PublicLink) : String :=
  "/share/" ++ l.token ++ "/"

/-- Claim C1, as stated, is false: `get_storage_used` does not exclude
trashed files. For an owner whose only file (size 5) is trashed, the code
returns 5 while the spec formula (sum over non-trashed files) gives 0. -/
theorem C1_counterexample :
    get_storage_used 0
      [{ owner := 0, folder := 1, name := "a.txt", file := some "blob", size := 5,
         is_trashed := true, trashed_at := some 10, original_folder := some 1,
         version_count := 1 }] ≠
    specUsedBytes 0
      [{ owner := 0, folder := 1, name := "a.txt", file := some "blob", size := 5,
         is_trashed := true, trashed_at := some 10, original_folder := some 1,
         version_count := 1 }] := by
  decide

/-- Claim C1 (amended): for every owner, `get_storage_used` returns the
sum of the sizes of ALL of that owner's files, trashed ones included
(the queryset filters on the owner only); being a pure function of the
file table, recomputing it changes nothing. -/
theorem C1_storage_used_sums_all_owner_files (u : Nat) (files : List StorageFile) :
    get_storage_used u files =
      ((files.filter (fun f => f.owner == u)).map (fun f => f.size)).sum := by
  show (if (List.map (fun f => f.size) (List.filter (fun f => f.owner == u) files)).isEmpty
          then 0
          else (List.map (fun f => f.size) (List.filter (fun f => f.owner == u) files)).sum) =
       (List.map (fun f => f.size) (List.filter (fun f => f.owner == u) files)).sum
  split
  next h =>
    rw [List.isEmpty_iff] at h
    rw [h]
    rfl
  next => rfl

/-- Claim C5: for every owner with nonzero quota, `is_storage_full` holds
iff `used >= quota`, and `is_storage_warning threshold` holds iff
`used / quota * 100 >= threshold`. -/
theorem C5_full_and_warning_iff (used : Nat) (quota : Int) (t : ℚ) (h : quota ≠ 0) :
    (is_storage_full used quota = true ↔ quota ≤ (used : Int)) ∧
    (is_storage_warning used quota t = true ↔ t ≤ ((used : ℚ) / (quota : ℚ)) * 100) := by
  constructor
  · simp [is_storage_full]
  · simp [is_storage_warning, get_storage_used_percentage, h]

/-- Witness for C5, the spec's example: quota 1 GiB (1073741824 bytes),
900,000,000 bytes used: the 80% warning fires and the storage is not
full. -/
theorem C5_witness :
    is_storage_warning 900000000 1073741824 80 = true ∧
    is_storage_full 900000000 1073741824 = false := by
  have h := C5_full_and_warning_iff 900000000 1073741824 80 (by norm_num)
  refine ⟨h.2.mpr (by norm_num), ?_⟩
  by_contra hb
  rw [Bool.not_eq_false] at hb
  have hle := h.1.mp hb
  norm_num at hle

/-- Claim C6: the remaining-storage computation returns quota minus used
bytes (an integer that may be negative), and the remaining figure shown
by the storage-statistics view is clamped at 0, hence never negative. -/
theorem C6_remaining_and_display_clamped (used : Nat) (quota : Int) :
    get_storage_remaining used quota = quota - (used : Int) ∧
    0 ≤ storage_stats_remaining_gb used quota :=
  ⟨rfl, le_max_left 0 _⟩

/-- Claim C10: with a zero quota the percentage computation takes the
guarded branch and returns 0 (no division is attempted), so the warning
predicate is false for every positive threshold, while `is_storage_full`
is true (in particular whenever any usage exists). -/
theorem C10_zero_quota_safe (used : Nat) (t : ℚ) (ht : 0 < t) :
    get_storage_used_percentage used 0 = 0 ∧
    is_storage_warning used 0 t = false ∧
    is_storage_full used 0 = true := by
  refine ⟨by simp [get_storage_used_percentage], ?_, ?_⟩
  · simp only [is_storage_warning, get_storage_used_percentage, if_pos rfl,
      decide_eq_false_iff_not]
    exact not_le.mpr ht
  · simp [is_storage_full, Int.natCast_nonneg]

/-- Witness for C10: owner with 5 bytes in files and quota 0. -/
theorem C10_witness :
    get_storage_used_percentage 5 0 = 0 ∧
    is_storage_warning 5 0 50 = false ∧
    is_storage_full 5 0 = true :=
  C10_zero_quota_safe 5 50 (by norm_num)

/-- Claim C2 fails on the restore path: uploading a file creates version 1
with `is_current = true`, and restoring from that version creates version 2
with `is_current = true` without clearing the flag on version 1, leaving
TWO current versions. Evaluates the code at the failing input. -/
theorem C2_two_current_after_restore :
    currentCount (create_initial_file_version "blob" "hash" 4) = 1 ∧
    currentCount (restore_file_version (create_initial_file_version "blob" "hash" 4)
      { version_number := 1, file_data := "blob", file_hash := "hash", size := 4,
        change_description := "", is_current := true }) = 2 := by
  constructor <;> rfl

/-- Claim C3, as stated, is false: the trash sweep deletes only the
`TrashBin` rows. With one entry (expiry 0, pointing at stored object 7)
and `now = 10`, the sweep removes the record but object 7's content is
still present afterwards. -/
theorem C3_counterexample :
    (cleanup_trash { entries := [{ id := 1, expires_at := 0, object_id := 7 }],
                     contents := [7] } 10).entries = [] ∧
    7 ∈ (cleanup_trash { entries := [{ id := 1, expires_at := 0, object_id := 7 }],
                         contents := [7] } 10).contents := by
  decide

/-- Claim C3 (amended): every trash entry whose `expires_at` lies in the
past is purged by the periodic task (an entry survives iff it has not yet
expired), the purge removes only the trash record — the underlying file
content is left untouched by the sweep — and the age-based
management-command sweep defaults to purging entries 30 days past trash
expiry. -/
theorem C3_sweep_removes_records_only (st : TrashState) (now : Int) (e : TrashEntry) :
    (cleanup_trash st now).contents = st.contents ∧
    (e ∈ (cleanup_trash st now).entries ↔ e ∈ st.entries ∧ now ≤ e.expires_at) ∧
    (cleanup_trash_command st now cleanup_trash_command_default_days).contents = st.contents ∧
    (e ∈ (cleanup_trash_command st now cleanup_trash_command_default_days).entries ↔
      e ∈ st.entries ∧ now - 30 * 86400 ≤ e.expires_at) := by
  refine ⟨rfl, ?_, rfl, ?_⟩
  · simp [cleanup_trash, List.mem_filter, not_lt]
  · simp [cleanup_trash_command, cleanup_trash_command_default_days, List.mem_filter, not_lt]

/-- Claim C4, as stated, is false in one respect: the new version does
not copy the restored version's change description — it gets the fresh
text "Restored from version N". Restoring version 1 (description
"initial upload") of a three-version file yields a version 4 whose
description is not "initial upload". -/
theorem C4_counterexample :
    ((restore_file_version
        { version_count := 3
          versions :=
            [{ version_number := 1, file_data := "d1", file_hash := "h1", size := 1,
               change_description := "initial upload", is_current := false },
             { version_number := 2, file_data := "d2", file_hash := "h2", size := 2,
               change_description := "second edit", is_current := false },
             { version_number := 3, file_data := "d3", file_hash := "h3", size := 3,
               change_description := "third edit", is_current := true }] }
        { version_number := 1, file_data := "d1", file_hash := "h1", size := 1,
          change_description := "initial upload", is_current := false }).versions.getLast?).map
      (fun w => w.change_description) ≠ some "initial upload" := by
  decide

/-- Claim C4 (amended): restoring a version V of a file whose version
count is N appends exactly one new version numbered N+1 that copies V's
content (`file_data`, `file_hash`, `size`), carries the fresh change
description "Restored from version (V's number)", is marked current, and
the file's `version_count` becomes N+1. -/
theorem C4_restore_appends_copy (st : FileState) (v : FileVersion)
    (_hv : v ∈ st.versions) :
    ∃ w : FileVersion,
      (restore_file_version st v).versions = st.versions ++ [w] ∧
      w.version_number = st.version_count + 1 ∧
      w.file_data = v.file_data ∧
      w.file_hash = v.file_hash ∧
      w.size = v.size ∧
      w.change_description = "Restored from version " ++ toString v.version_number ∧
      w.is_current = true ∧
      (restore_file_version st v).version_count = st.version_count + 1 :=
  ⟨_, rfl, rfl, rfl, rfl, rfl, rfl, rfl, rfl⟩

/-- Witness for C4, the spec's example: a file with versions 1, 2, 3
(version 3 current); restoring version 1 creates version 4 as a copy of
version 1's content, marked current. -/
theorem C4_witness :
    ∃ w : FileVersion,
      (restore_file_version
        { version_count := 3
          versions :=
            [{ version_number := 1, file_data := "d1", file_hash := "h1", size := 1,
               change_description := "initial upload", is_current := false },
             { version_number := 2, file_data := "d2", file_hash := "h2", size := 2,
               change_description := "second edit", is_current := false },
             { version_number := 3, file_data := "d3", file_hash := "h3", size := 3,
               change_description := "third edit", is_current := true }] }
        { version_number := 1, file_data := "d1", file_hash := "h1", size := 1,
          change_description := "initial upload", is_current := false }).versions =
        [{ version_number := 1, file_data := "d1", file_hash := "h1", size := 1,
           change_description := "initial upload", is_current := false },
         { version_number := 2, file_data := "d2", file_hash := "h2", size := 2,
           change_description := "second edit", is_current := false },
         { version_number := 3, file_data := "d3", file_hash := "h3", size := 3,
           change_description := "third edit", is_current := true }] ++ [w] ∧
      w.version_number = 4 ∧
      w.file_data = "d1" ∧
      w.file_hash = "h1" ∧
      w.size = 1 ∧
      w.is_current = true := by
  obtain ⟨w, h1, h2, h3, h4, h5, _, h7, _⟩ :=
    C4_restore_appends_copy
      { version_count := 3
        versions :=
          [{ version_number := 1, file_data := "d1", file_hash := "h1", size := 1,
             change_description := "initial upload", is_current := false },
           { version_number := 2, file_data := "d2", file_hash := "h2", size := 2,
             change_description := "second edit", is_current := false },
           { version_number := 3, file_data := "d3", file_hash := "h3", size := 3,
             change_description := "third edit", is_current := true }] }
      { version_number := 1, file_data := "d1", file_hash := "h1", size := 1,
        change_description := "initial upload", is_current := false }
      (by decide)
  exact ⟨w, h1, h2, h3, h4, h5, h7⟩

/-- Claim C7: over the enumerated permission levels, the capability
predicates form the implication chain
admin ⇒ share ⇒ delete ⇒ edit ⇒ download ⇒ view. -/
theorem C7_permission_chain (p : String) (hp : p ∈ PERMISSION_CHOICES) :
    (can_admin p = true → can_share p = true) ∧
    (can_share p = true → can_delete p = true) ∧
    (can_delete p = true → can_edit p = true) ∧
    (can_edit p = true → can_download p = true) ∧
    (can_download p = true → can_view p = true) := by
  fin_cases hp <;> exact ⟨fun h => by revert h; decide, fun h => by revert h; decide,
    fun h => by revert h; decide, fun h => by revert h; decide, fun h => by revert h; decide⟩

/-- Witness for C7 at level "edit": `can_edit` holds and, through the
chain, so does `can_view`. -/
theorem C7_witness :
    can_edit "edit" = true ∧ can_view "edit" = true := by
  have h := C7_permission_chain "edit" (by decide)
  exact ⟨by decide, h.2.2.2.2 (h.2.2.2.1 (by decide))⟩

/-- Claim C8: moving a file to trash records the current folder in
`original_folder`, sets `is_trashed` and `trashed_at`, and leaves the
content and folder reference untouched; while trashed, the file still
carries its original folder; restoring clears the trash state and puts
the file back in the recorded folder, again leaving the content alone. -/
theorem C8_trash_roundtrip (f : StorageFile) (now : Int) :
    (move_to_trash f now).original_folder = some f.folder ∧
    (move_to_trash f now).is_trashed = true ∧
    (move_to_trash f now).trashed_at = some now ∧
    (move_to_trash f now).file = f.file ∧
    (move_to_trash f now).folder = f.folder ∧
    (restore_from_trash (move_to_trash f now)).is_trashed = false ∧
    (restore_from_trash (move_to_trash f now)).trashed_at = none ∧
    (restore_from_trash (move_to_trash f now)).folder = f.folder ∧
    (restore_from_trash (move_to_trash f now)).file = f.file :=
  ⟨rfl, rfl, rfl, rfl, rfl, rfl, rfl, rfl, rfl⟩

/-- Claim C9: a public link is expired iff a date expiry is set and has
passed, or a download limit is set (the stored limit is a positive
integer, per the field's `MinValueValidator(1)`) and the download counter
has reached it; with neither set the link is never expired; and the
public URL is exactly `/share/{token}/`. -/
theorem C9_public_link_expiry (l : PublicLink) (now : Int)
    (hvalid : ∀ n, l.expires_after_downloads = some n → 1 ≤ n) :
    (l.is_expired now = true ↔
      (∃ t, l.expires_at = some t ∧ t < now) ∨
      (∃ n, l.expires_after_downloads = some n ∧ n ≤ l.download_count)) ∧
    (l.expires_at = none → l.expires_after_downloads = none → l.is_expired now = false) ∧
    l.get_url = "/share/" ++ l.token ++ "/" := by
  refine ⟨?_, ?_, rfl⟩
  · rcases hA : l.expires_at with _ | t <;> rcases hB : l.expires_after_downloads with _ | n
    · simp [PublicLink.is_expired, hA, hB]
    · have hn : n ≠ 0 := by
        have := hvalid n hB
        omega
      simp [PublicLink.is_expired, hA, hB, hn]
    · simp [PublicLink.is_expired, hA, hB]
    · have hn : n ≠ 0 := by
        have := hvalid n hB
        omega
      by_cases ht : t < now
      · simp [PublicLink.is_expired, hA, hB, ht]
      · simp [PublicLink.is_expired, hA, hB, ht, hn]
  · intro hA hB
    simp [PublicLink.is_expired, hA, hB]

/-- Witness for C9: a link with token "abc" whose date expiry (time 5)
has passed at time 10 is expired, and its URL is `/share/abc/`. -/
theorem C9_witness :
    PublicLink.is_expired
      { token := "abc", expires_at := some 5, expires_after_downloads := none,
        download_count := 0 } 10 = true ∧
    PublicLink.get_url
      { token := "abc", expires_at := some 5, expires_after_downloads := none,
        download_count := 0 } = "/share/abc/" := by
  have h := C9_public_link_expiry
    { token := "abc", expires_at := some 5, expires_after_downloads := none,
      download_count := 0 } 10 (by intro n hn; cases hn)
  exact ⟨h.1.mpr (Or.inl ⟨5, rfl, by norm_num⟩), h.2.2⟩

end CloudService
